import Mathlib

/-!
Verification of the request-execution pipeline of `linearator`
(`src/linearator/api/client/client.py`, `LinearClient.execute_query`).

The Python method is embedded shallowly as a pure Lean function.  The
transport (`gql` client `execute_async`) is modelled as a function from
the send index (0-based count of transport invocations within one
logical call) to the outcome of that send; the authenticator, the rate
limiter and the response cache are modelled through an explicit trace of
the observable effects the Python code performs on them:

* `sends`    — one entry per transport invocation, recording the token
               generation captured in the headers of the gql client
               object on which `execute_async` was called;
* `sleeps`   — the durations passed to `asyncio.sleep`, in order;
* `refreshes`— how many times `authenticator.refresh_token()` ran;
* `rateAcquired` — whether `rate_limiter.acquire()` was awaited;
* `cacheGets` / `cacheSets` — invocations of `cache.get` / `cache.set`.

A GraphQL result (`dict[str, Any]`) is modelled as an association list;
Python truthiness of the dict (`if ... result:`) is `¬ r.isEmpty`.
-/

/-- A GraphQL response payload (`dict[str, Any]` in the source).  Python
truthiness of the dict corresponds to the list being nonempty. -/
def GqlResult : Type := List (String × String)

instance : DecidableEq GqlResult := by
  unfold GqlResult
  infer_instance

/-- The `e.response` object of a `TransportError`: HTTP status code and
the optional `Retry-After` header (`e.response.headers["Retry-After"]`,
already converted by `int`). -/
structure ErrResponse where
  status_code : Nat
  retryAfter : Option Nat
deriving DecidableEq, Repr

/-- Outcome of one transport send (`client.execute_async`), i.e. of the
body of the inner `try`.  `transportErr none msg` is a
`TransportError` whose `response` attribute is absent or falsy;
`otherErr` is any non-`TransportError` exception, carrying `str(e)`. -/
inductive TransportResult where
  | ok (result : GqlResult)
  | transportErr (response : Option ErrResponse) (msg : String)
  | otherErr (msg : String)
deriving DecidableEq

/-- Caller-visible outcome of `execute_query`. -/
inductive Outcome where
  | success (result : GqlResult)
  | authError (msg : String)
  | rateLimitError (msg : String)
  | apiError (msg : String)
deriving DecidableEq

/-- One transport invocation, recording the token generation baked into
the headers of the gql client object that performed it. -/
structure SendRec where
  headerTokenGen : Nat
deriving DecidableEq, Repr

/-- Trace of the observable effects of one `execute_query` call. -/
structure Trace where
  sends : List SendRec
  sleeps : List Nat
  refreshes : Nat
  rateAcquired : Bool
  cacheGets : Nat
  cacheSets : List GqlResult
deriving DecidableEq

/-- The empty trace, at the start of a logical call. -/
def Trace.init : Trace :=
  { sends := [], sleeps := [], refreshes := 0, rateAcquired := false,
    cacheGets := 0, cacheSets := [] }

/-- Mutable client-object state touched by `execute_query`:
`tokenGen` counts how many times the access token was refreshed
(`authenticator.refresh_token()`), and `boundClient` is the
`self._gql_client` field — `some g` means a client is bound whose
headers captured token generation `g`, `none` means the field is
`None`. -/
structure ClientState where
  tokenGen : Nat
  boundClient : Option Nat
deriving DecidableEq, Repr

/-- `LinearClient._get_gql_client`: return the bound client if present,
otherwise build one whose headers capture the current token
generation and bind it. -/
def getGqlClient (s : ClientState) : Nat × ClientState :=
  match s.boundClient with
  | some g => (g, s)
  | none => (s.tokenGen, { s with boundClient := some s.tokenGen })

/-- `a.isPrefixOf`-style check on character lists, written out. -/
def leadsWith : List Char → List Char → Bool
  | [], _ => true
  | _ :: _, [] => false
  | a :: as, b :: bs => a == b && leadsWith as bs

/-- Substring containment on character lists. -/
def hasSub (sub : List Char) : List Char → Bool
  | [] => sub.isEmpty
  | c :: rest => leadsWith sub (c :: rest) || hasSub sub rest

/-- `"timeout" in str(e).lower()` from the source: lowercase the error
text character by character, then look for the substring. -/
def containsTimeout (msg : String) : Bool :=
  hasSub "timeout".toList (msg.toList.map Char.toLower)

/-- Result of handling one loop iteration: either the call terminates
with an `Outcome`, or the Python `continue` runs and the `for` loop
moves to the next value of `attempt`. -/
inductive StepRes where
  | done (o : Outcome)
  | again
deriving DecidableEq

/-- One iteration of the retry `for` loop of `execute_query`, after the
transport send has produced `res`.  `max_retries` is
`self.config.max_retries`, `attempt` the loop variable, `refreshOk`
whether `authenticator.refresh_token()` succeeds (as opposed to raising
`AuthenticationError`), `useCache`/`cacheOn` the `use_cache` argument
and `self.cache is not None`. -/
def attemptStep (max_retries attempt : Nat) (refreshOk useCache cacheOn : Bool)
    (res : TransportResult) (st : ClientState) (tr : Trace) :
    StepRes × ClientState × Trace :=
  match res with
  | .ok result =>
      -- Cache successful results: `if use_cache and self.cache and result:`
      let tr := if useCache && cacheOn && !(List.isEmpty result)
        then { tr with cacheSets := tr.cacheSets ++ [result] } else tr
      (.done (.success result), st, tr)
  | .transportErr response msg =>
      match response with
      | some resp =>
          if resp.status_code == 401 then
            if refreshOk then
              -- refresh_token(); self._gql_client = None; continue
              (.again,
               { tokenGen := st.tokenGen + 1, boundClient := none },
               { tr with refreshes := tr.refreshes + 1 })
            else
              (.done (.authError "Authentication failed - please login again"),
               st, { tr with refreshes := tr.refreshes + 1 })
          else if resp.status_code == 429 then
            let wait_time := match resp.retryAfter with
              | some w => w
              | none => 60
            if attempt < max_retries then
              (.again, st, { tr with sleeps := tr.sleeps ++ [wait_time] })
            else
              (.done (.rateLimitError "Rate limit exceeded"), st, tr)
          else if 500 ≤ resp.status_code && resp.status_code < 600 then
            if attempt < max_retries then
              (.again, st, { tr with sleeps := tr.sleeps ++ [2 ^ attempt] })
            else
              (.done (.apiError ("Transport error: " ++ msg)), st, tr)
          else
            (.done (.apiError ("Transport error: " ++ msg)), st, tr)
      | none =>
          (.done (.apiError ("Transport error: " ++ msg)), st, tr)
  | .otherErr msg =>
      if attempt < max_retries && containsTimeout msg then
        (.again, st, { tr with sleeps := tr.sleeps ++ [2 ^ attempt] })
      else
        (.done (.apiError ("Query execution failed: " ++ msg)), st, tr)

/-- The retry `for attempt in range(max_retries + 1)` loop.  `remaining`
is the number of loop iterations still to run and `attempt` the current
loop index; `clientGen` is the header token generation of the local
variable `client`, bound by `client = self._get_gql_client()` BEFORE the
loop and never rebound inside it.  Falling off the end of the loop
raises `LinearAPIError("Max retries exceeded")`. -/
def execLoop (max_retries : Nat) (transport : Nat → TransportResult)
    (refreshOk useCache cacheOn : Bool) (clientGen : Nat) :
    Nat → Nat → ClientState → Trace → Outcome × ClientState × Trace
  | 0, _, st, tr => (.apiError "Max retries exceeded", st, tr)
  | remaining + 1, attempt, st, tr =>
      let tr := { tr with sends := tr.sends ++ [⟨clientGen⟩] }
      match attemptStep max_retries attempt refreshOk useCache cacheOn
          (transport attempt) st tr with
      | (.done o, st, tr) => (o, st, tr)
      | (.again, st, tr) =>
          execLoop max_retries transport refreshOk useCache cacheOn clientGen
            remaining (attempt + 1) st tr

/-- `LinearClient.execute_query`.  `cacheLookup` is the value
`self.cache.get(query, variables)` would return for this query
(`none` = miss or expired); `transport k` is the outcome of the
`k`-th transport send within this call. -/
def execute_query (max_retries : Nat) (transport : Nat → TransportResult)
    (refreshOk : Bool) (cacheLookup : Option GqlResult)
    (useCache cacheOn : Bool) (st : ClientState) : Outcome × ClientState × Trace :=
  -- Check cache first
  let tr := Trace.init
  if useCache && cacheOn then
    let tr := { tr with cacheGets := tr.cacheGets + 1 }
    match cacheLookup with
    | some cached => (.success cached, st, tr)
    | none =>
        let tr := { tr with rateAcquired := true }
        let (clientGen, st) := getGqlClient st
        execLoop max_retries transport refreshOk useCache cacheOn clientGen
          (max_retries + 1) 0 st tr
  else
    let tr := { tr with rateAcquired := true }
    let (clientGen, st) := getGqlClient st
    execLoop max_retries transport refreshOk useCache cacheOn clientGen
      (max_retries + 1) 0 st tr

/-- A fresh client state at the start of a call: no client bound yet. -/
def ClientState.fresh : ClientState := { tokenGen := 0, boundClient := none }

/-! ### Structural lemmas about one loop iteration -/

/-- Handling a transport result never records a transport send (sends are
recorded by the loop itself, one per iteration). -/
lemma attemptStep_sends (m a : Nat) (rOk uc co : Bool) (res : TransportResult)
    (st : ClientState) (tr : Trace) :
    (attemptStep m a rOk uc co res st tr).2.2.sends = tr.sends := by
  rcases res with r | ⟨resp, msg⟩ | msg
  · simp only [attemptStep]
    split <;> rfl
  · rcases resp with _ | r
    · rfl
    · simp only [attemptStep]
      repeat' split
      all_goals rfl
  · simp only [attemptStep]
    split <;> rfl

/-- Handling a transport result never calls `cache.get`. -/
lemma attemptStep_cacheGets (m a : Nat) (rOk uc co : Bool) (res : TransportResult)
    (st : ClientState) (tr : Trace) :
    (attemptStep m a rOk uc co res st tr).2.2.cacheGets = tr.cacheGets := by
  rcases res with r | ⟨resp, msg⟩ | msg
  · simp only [attemptStep]
    split <;> rfl
  · rcases resp with _ | r
    · rfl
    · simp only [attemptStep]
      repeat' split
      all_goals rfl
  · simp only [attemptStep]
    split <;> rfl

/-- With `use_cache = false`, handling a transport result never calls
`cache.set` (the guard `use_cache and self.cache and result` is false). -/
lemma attemptStep_cacheSets_noCache (m a : Nat) (rOk co : Bool)
    (res : TransportResult) (st : ClientState) (tr : Trace) :
    (attemptStep m a rOk false co res st tr).2.2.cacheSets = tr.cacheSets := by
  rcases res with r | ⟨resp, msg⟩ | msg
  · rfl
  · rcases resp with _ | r
    · rfl
    · simp only [attemptStep]
      repeat' split
      all_goals rfl
  · simp only [attemptStep]
    split <;> rfl

/-- Every payload handed to `cache.set` passed the Python truthiness
check `result`, so only nonempty payloads are ever written. -/
lemma attemptStep_cacheSets_all (m a : Nat) (rOk uc co : Bool)
    (res : TransportResult) (st : ClientState) (tr : Trace)
    (h : tr.cacheSets.all (fun r => !(List.isEmpty r)) = true) :
    ((attemptStep m a rOk uc co res st tr).2.2.cacheSets.all
      (fun r => !(List.isEmpty r))) = true := by
  rcases res with r | ⟨resp, msg⟩ | msg
  · simp only [attemptStep]
    split
    · rename_i hcond
      rw [Bool.and_eq_true] at hcond
      simp only [List.all_append, List.all_cons, List.all_nil, Bool.and_true, h,
        Bool.true_and]
      exact hcond.2
    · exact h
  · rcases resp with _ | r
    · exact h
    · simp only [attemptStep]
      repeat' split
      all_goals exact h
  · simp only [attemptStep]
    split <;> exact h

/-! ### Structural lemmas about the retry loop -/

/-- Each loop iteration records exactly one transport send, so a loop
with `remaining` iterations left adds at most `remaining` sends. -/
lemma execLoop_sends_le (m : Nat) (t : Nat → TransportResult) (rOk uc co : Bool)
    (g : Nat) :
    ∀ (remaining attempt : Nat) (st : ClientState) (tr : Trace),
    (execLoop m t rOk uc co g remaining attempt st tr).2.2.sends.length ≤
      tr.sends.length + remaining := by
  intro remaining
  induction remaining with
  | zero =>
      intro a st tr
      simp [execLoop]
  | succ r ih =>
      intro a st tr
      simp only [execLoop]
      rcases h : attemptStep m a rOk uc co (t a)
          st { tr with sends := tr.sends ++ [⟨g⟩] } with ⟨sr, st2, tr2⟩
      have hs := attemptStep_sends m a rOk uc co (t a)
          st { tr with sends := tr.sends ++ [⟨g⟩] }
      rw [h] at hs
      cases sr with
      | done o =>
          have hs2 : tr2.sends.length = tr.sends.length + 1 := by
            rw [hs]; simp
          show tr2.sends.length ≤ tr.sends.length + (r + 1)
          omega
      | again =>
          calc (execLoop m t rOk uc co g r (a + 1) st2 tr2).2.2.sends.length
              ≤ tr2.sends.length + r := ih (a + 1) st2 tr2
            _ = tr.sends.length + 1 + r := by
                rw [hs]; simp
            _ ≤ tr.sends.length + (r + 1) := by omega

/-- The retry loop never calls `cache.get` (the only cache lookup is
before the loop). -/
lemma execLoop_cacheGets (m : Nat) (t : Nat → TransportResult) (rOk uc co : Bool)
    (g : Nat) :
    ∀ (remaining attempt : Nat) (st : ClientState) (tr : Trace),
    (execLoop m t rOk uc co g remaining attempt st tr).2.2.cacheGets =
      tr.cacheGets := by
  intro remaining
  induction remaining with
  | zero =>
      intro a st tr
      simp [execLoop]
  | succ r ih =>
      intro a st tr
      simp only [execLoop]
      rcases h : attemptStep m a rOk uc co (t a)
          st { tr with sends := tr.sends ++ [⟨g⟩] } with ⟨sr, st2, tr2⟩
      have hg := attemptStep_cacheGets m a rOk uc co (t a)
          st { tr with sends := tr.sends ++ [⟨g⟩] }
      rw [h] at hg
      cases sr with
      | done o => exact hg
      | again => rw [ih (a + 1) st2 tr2, hg]

/-- With `use_cache = false` the retry loop never calls `cache.set`. -/
lemma execLoop_cacheSets_noCache (m : Nat) (t : Nat → TransportResult)
    (rOk co : Bool) (g : Nat) :
    ∀ (remaining attempt : Nat) (st : ClientState) (tr : Trace),
    (execLoop m t rOk false co g remaining attempt st tr).2.2.cacheSets =
      tr.cacheSets := by
  intro remaining
  induction remaining with
  | zero =>
      intro a st tr
      simp [execLoop]
  | succ r ih =>
      intro a st tr
      simp only [execLoop]
      rcases h : attemptStep m a rOk false co (t a)
          st { tr with sends := tr.sends ++ [⟨g⟩] } with ⟨sr, st2, tr2⟩
      have hg := attemptStep_cacheSets_noCache m a rOk co (t a)
          st { tr with sends := tr.sends ++ [⟨g⟩] }
      rw [h] at hg
      cases sr with
      | done o => exact hg
      | again => rw [ih (a + 1) st2 tr2, hg]

/-- The retry loop preserves the invariant that every payload written to
the cache is nonempty. -/
lemma execLoop_cacheSets_all (m : Nat) (t : Nat → TransportResult)
    (rOk uc co : Bool) (g : Nat) :
    ∀ (remaining attempt : Nat) (st : ClientState) (tr : Trace),
    tr.cacheSets.all (fun r => !(List.isEmpty r)) = true →
    ((execLoop m t rOk uc co g remaining attempt st tr).2.2.cacheSets.all
      (fun r => !(List.isEmpty r))) = true := by
  intro remaining
  induction remaining with
  | zero =>
      intro a st tr hinv
      simpa [execLoop] using hinv
  | succ r ih =>
      intro a st tr hinv
      simp only [execLoop]
      rcases h : attemptStep m a rOk uc co (t a)
          st { tr with sends := tr.sends ++ [⟨g⟩] } with ⟨sr, st2, tr2⟩
      have hg := attemptStep_cacheSets_all m a rOk uc co (t a)
          st { tr with sends := tr.sends ++ [⟨g⟩] } hinv
      rw [h] at hg
      cases sr with
      | done o => exact hg
      | again => exact ih (a + 1) st2 tr2 hg

/-! ### Scenario transports used by several claims -/

/-- A transport that returns HTTP 401 on the first send and a successful
payload on every later send. -/
def transport401then200 : Nat → TransportResult := fun k =>
  if k == 0 then .transportErr (some ⟨401, none⟩) "unauthorized"
  else .ok [("viewer", "me")]

/-! ### Claim theorems -/

/-- C6: with caching enabled and `use_cache = true`, a cache hit returns
the cached payload immediately: the cache was read once and no
rate-limiter token was acquired, no transport send happened, no sleep,
no refresh and no cache write occurred. -/
theorem C6_cache_hit (m : Nat) (t : Nat → TransportResult) (rOk : Bool)
    (r : GqlResult) (st : ClientState) :
    execute_query m t rOk (some r) true true st =
      (.success r, st,
       { sends := [], sleeps := [], refreshes := 0, rateAcquired := false,
         cacheGets := 1, cacheSets := [] }) := rfl

/-- C5: with `max_retries = 2` and a transport that always returns
HTTP 500, `execute_query` raises `LinearAPIError("Transport error: ...")`
(the spec's `TransportError` kind) after exactly 3 transport sends, with
backoff sleeps of `2^0` and `2^1` seconds between them, and no payload
is returned or cached. -/
theorem C5_retry_exhaustion (msg : String) :
    execute_query 2 (fun _ => .transportErr (some ⟨500, none⟩) msg) true none
      true true ClientState.fresh =
      (.apiError ("Transport error: " ++ msg), ⟨0, some 0⟩,
       { sends := [⟨0⟩, ⟨0⟩, ⟨0⟩], sleeps := [1, 2], refreshes := 0,
         rateAcquired := true, cacheGets := 1, cacheSets := [] }) := rfl

/-- C3: for every configuration and transport behaviour, one logical
`execute_query` call performs at most `max_retries + 1` transport sends
(the `for attempt in range(max_retries + 1)` loop sends once per
iteration, and the 401-refresh `continue` consumes an iteration like any
other retry).  This is within the claim's `max_retries + 2` allowance
for a call that sees one 401. -/
theorem C3_attempt_budget (m : Nat) (t : Nat → TransportResult)
    (rOk uc co : Bool) (cl : Option GqlResult) (st : ClientState) :
    (execute_query m t rOk cl uc co st).2.2.sends.length ≤ m + 1 := by
  unfold execute_query
  split
  · cases cl with
    | some cached => simp [Trace.init]
    | none =>
        rcases hg : getGqlClient st with ⟨g, st2⟩
        refine le_trans (execLoop_sends_le m t rOk uc co g (m + 1) 0 st2 _) ?_
        simp [Trace.init]
  · rcases hg : getGqlClient st with ⟨g, st2⟩
    refine le_trans (execLoop_sends_le m t rOk uc co g (m + 1) 0 st2 _) ?_
    simp [Trace.init]

/-- C7: with `use_cache = false`, `execute_query` never consults the
cache and never populates it, whatever the transport does and however
the call ends: `cache.get` is called zero times and `cache.set` writes
nothing. -/
theorem C7_cache_bypass (m : Nat) (t : Nat → TransportResult)
    (rOk co : Bool) (cl : Option GqlResult) (st : ClientState) :
    (execute_query m t rOk cl false co st).2.2.cacheGets = 0 ∧
    (execute_query m t rOk cl false co st).2.2.cacheSets = [] := by
  unfold execute_query
  simp only [Bool.false_and, Bool.false_eq_true, if_false]
  rcases hg : getGqlClient st with ⟨g, st2⟩
  constructor
  · have h1 := execLoop_cacheGets m t rOk false co g (m + 1) 0 st2
      { Trace.init with rateAcquired := true }
    exact h1.trans rfl
  · have h2 := execLoop_cacheSets_noCache m t rOk co g (m + 1) 0 st2
      { Trace.init with rateAcquired := true }
    exact h2.trans rfl

/-- C1 counterexample: with `max_retries = 0` and a transport that
returns 401 on the first send and would succeed on the next, the
401-triggered `continue` consumes the only iteration of
`for attempt in range(max_retries + 1)`: the call fails with
`LinearAPIError("Max retries exceeded")` after a single send and the
exempt retry promised by the claim never happens, even though
`refresh_token()` ran once. -/
theorem C1_counterexample :
    (execute_query 0 transport401then200 true none true true
      ClientState.fresh).1 = .apiError "Max retries exceeded" ∧
    (execute_query 0 transport401then200 true none true true
      ClientState.fresh).2.2.refreshes = 1 ∧
    (execute_query 0 transport401then200 true none true true
      ClientState.fresh).2.2.sends.length = 1 :=
  ⟨rfl, rfl, rfl⟩

/-- C1 amended: the 401-triggered retry does count against the
`max_retries` attempt budget.  Whenever `max_retries ≥ 1`, a transport
returning 401 on the first send and a payload on the second makes
`refresh_token()` run exactly once and the call succeed after exactly
two sends. -/
theorem C1_amended_401_consumes_budget (n : Nat) (p : GqlResult) (msg : String) :
    (execute_query (n + 1)
      (fun k => if k == 0 then .transportErr (some ⟨401, none⟩) msg else .ok p)
      true none true true ClientState.fresh).1 = .success p ∧
    (execute_query (n + 1)
      (fun k => if k == 0 then .transportErr (some ⟨401, none⟩) msg else .ok p)
      true none true true ClientState.fresh).2.2.refreshes = 1 ∧
    (execute_query (n + 1)
      (fun k => if k == 0 then .transportErr (some ⟨401, none⟩) msg else .ok p)
      true none true true ClientState.fresh).2.2.sends.length = 2 := by
  by_cases hp : List.isEmpty p = true <;>
    simp [execute_query, execLoop, attemptStep, getGqlClient, ClientState.fresh,
      Trace.init, hp]

/-- C2: after a 401 and a successful refresh, the retried send is NOT
performed with rebuilt headers.  `self._gql_client` is set to `None`
(the source comment says "Reset client to use new token"), but the local
variable `client` bound before the loop is reused, so both sends carry
headers of token generation 0 even though the refresh advanced the token
to generation 1. -/
theorem C2_stale_client_after_refresh :
    (execute_query 1 transport401then200 true none true true
      ClientState.fresh).2.2.refreshes = 1 ∧
    (execute_query 1 transport401then200 true none true true
      ClientState.fresh).2.1.tokenGen = 1 ∧
    (execute_query 1 transport401then200 true none true true
      ClientState.fresh).2.2.sends.map SendRec.headerTokenGen = [0, 0] :=
  ⟨rfl, rfl, rfl⟩

/-- C4: with `max_retries = 3` and a transport returning HTTP 503 on the
first three sends and a payload on the fourth, `execute_query` returns
the payload, the transport was invoked exactly 4 times, and retry `k`
was preceded by a `2^(k-1)`-second backoff sleep: sleeps `[1, 2, 4]`. -/
theorem C4_backoff_503 (p : GqlResult) (msg : String) :
    (execute_query 3
      (fun k => if k < 3 then .transportErr (some ⟨503, none⟩) msg else .ok p)
      true none true true ClientState.fresh).1 = .success p ∧
    (execute_query 3
      (fun k => if k < 3 then .transportErr (some ⟨503, none⟩) msg else .ok p)
      true none true true ClientState.fresh).2.2.sends.length = 4 ∧
    (execute_query 3
      (fun k => if k < 3 then .transportErr (some ⟨503, none⟩) msg else .ok p)
      true none true true ClientState.fresh).2.2.sleeps = [1, 2, 4] := by
  by_cases hp : List.isEmpty p = true <;>
    simp [execute_query, execLoop, attemptStep, getGqlClient, ClientState.fresh,
      Trace.init, hp]

/-- C8: an HTTP 429 is handled by reading the `Retry-After` header with
default 60 seconds; while attempts remain the executor sleeps for that
duration and retries, and once the budget is exhausted the call fails
with `RateLimitError("Rate limit exceeded")`.  The second conjunct runs
the spec's scenario: `Retry-After: 2`, `max_retries = 1`, always 429 —
one 2-second sleep, two sends, then `RateLimitError`. -/
theorem C8_rate_limited (m a : Nat) (rOk uc co : Bool) (ra : Option Nat)
    (msg : String) (st : ClientState) (tr : Trace) :
    attemptStep m a rOk uc co (.transportErr (some ⟨429, ra⟩) msg) st tr =
      (if a < m then
        (.again, st, { tr with sleeps := tr.sleeps ++ [ra.getD 60] })
      else (.done (.rateLimitError "Rate limit exceeded"), st, tr)) ∧
    execute_query 1 (fun _ => .transportErr (some ⟨429, some 2⟩) msg) true none
      true true ClientState.fresh =
      (.rateLimitError "Rate limit exceeded", ⟨0, some 0⟩,
       { sends := [⟨0⟩, ⟨0⟩], sleeps := [2], refreshes := 0,
         rateAcquired := true, cacheGets := 1, cacheSets := [] }) := by
  constructor
  · cases ra <;> rfl
  · rfl

/-- C9 counterexample: a transport attempt failing without an HTTP
status whose description indicates a connectivity condition
("connection refused") is NOT retried although an attempt remains
(`max_retries = 1`): the call fails immediately after one send with no
backoff sleep, because the source only retries when `"timeout"` occurs
in the lowered error text. -/
theorem C9_counterexample :
    (execute_query 1 (fun _ => .otherErr "connection refused") true none true
      true ClientState.fresh).1 =
      .apiError "Query execution failed: connection refused" ∧
    (execute_query 1 (fun _ => .otherErr "connection refused") true none true
      true ClientState.fresh).2.2.sends.length = 1 ∧
    (execute_query 1 (fun _ => .otherErr "connection refused") true none true
      true ClientState.fresh).2.2.sleeps = [] :=
  ⟨rfl, rfl, rfl⟩

/-- C9 amended: a non-transport exception is retried with the `2^attempt`
backoff exactly when attempts remain and the lowered error description
contains the substring "timeout"; any other such error — including every
connectivity error without that substring — and every `TransportError`
carrying no response fail immediately as `LinearAPIError`. -/
theorem C9_amended_timeout_gate (m a : Nat) (rOk uc co : Bool) (msg : String)
    (st : ClientState) (tr : Trace) :
    attemptStep m a rOk uc co (.otherErr msg) st tr =
      (if a < m && containsTimeout msg then
        (.again, st, { tr with sleeps := tr.sleeps ++ [2 ^ a] })
      else (.done (.apiError ("Query execution failed: " ++ msg)), st, tr)) ∧
    attemptStep m a rOk uc co (.transportErr none msg) st tr =
      (.done (.apiError ("Transport error: " ++ msg)), st, tr) :=
  ⟨rfl, rfl⟩

/-- C10: a successful but empty (falsy) payload is returned to the
caller without being written to the cache — first conjunct, a run with
caching enabled, `use_cache = true` and payload `[]` — and in every run
whatsoever, every payload ever handed to `cache.set` is nonempty —
second conjunct. -/
theorem C10_only_nonempty_cached (m : Nat) (t : Nat → TransportResult)
    (rOk uc co : Bool) (cl : Option GqlResult) (st : ClientState) :
    (execute_query 1 (fun _ => .ok []) true none true true ClientState.fresh) =
      (.success [], ⟨0, some 0⟩,
       { sends := [⟨0⟩], sleeps := [], refreshes := 0, rateAcquired := true,
         cacheGets := 1, cacheSets := [] }) ∧
    ((execute_query m t rOk cl uc co st).2.2.cacheSets.all
      (fun r => !(List.isEmpty r))) = true := by
  constructor
  · rfl
  · unfold execute_query
    split
    · cases cl with
      | some cached => rfl
      | none =>
          rcases hg : getGqlClient st with ⟨g, st2⟩
          exact execLoop_cacheSets_all m t rOk uc co g (m + 1) 0 st2 _ rfl
    · rcases hg : getGqlClient st with ⟨g, st2⟩
      exact execLoop_cacheSets_all m t rOk uc co g (m + 1) 0 st2 _ rfl
